import Mathlib

/-
Verification of the flines repository adapter layer.

The development shallowly embeds the adapter functions of the two Python
source files:
  src/main.py — build_enka_url, fetch_enka_data_sync,
                extract_characters_from_response (with its inner
                search_for_list)
  src/bot.py  — make_genshin_client (credential resolution), try_calls

Parsed JSON payloads are modelled by the inductive type Json below.
Python truthiness, dict.get, str() and the or-chains used by the source
are modelled explicitly.  Network I/O (requests.get) is modelled by an
oracle function mapping the request URL and the attempt number to the
outcome of that attempt; the attempt number stands for the changing state
of the external service across successive calls.
-/

/-- Parsed JSON tree, as produced by json.loads / resp.json().  Numbers are
modelled as integers; the payload fields the source inspects (names, ids,
levels) are integral in practice. -/
inductive Json where
  | null
  | bool (b : Bool)
  | num (n : Int)
  | str (s : String)
  | arr (xs : List Json)
  | obj (fields : List (String × Json))

/-- Whether a value is a Python dict (isinstance(x, dict)). -/
def Json.isObj : Json → Bool
  | Json.obj _ => true
  | _ => false

/-- First binding of a key in a field list; Python dicts have unique keys,
so this is exactly dict lookup. -/
def lookupField : List (String × Json) → String → Option Json
  | [], _ => none
  | (k, v) :: rest, key => if k = key then some v else lookupField rest key

/-- Models item.get(key): none when the receiver is not a dict or the key
is absent. -/
def jget : Json → String → Option Json
  | Json.obj fs, key => lookupField fs key
  | _, _ => none

/-- Python truthiness of a parsed JSON value: None, False, 0, empty string,
empty list and empty dict are falsy. -/
def truthy : Json → Bool
  | Json.null => false
  | Json.bool b => b
  | Json.num n => n != 0
  | Json.str s => s != ""
  | Json.arr xs => !xs.isEmpty
  | Json.obj fs => !fs.isEmpty

/-- A single-quote character, used by the Python repr of strings. -/
def pyQuote : String := (Char.ofNat 39).toString

mutual
/-- Python repr() of a parsed JSON value (str gives this rendering for
values nested inside containers). -/
def pyRepr : Json → String
  | Json.null => "None"
  | Json.bool b => if b then "True" else "False"
  | Json.num n => toString n
  | Json.str s => pyQuote ++ s ++ pyQuote
  | Json.arr xs => "[" ++ pyReprList xs ++ "]"
  | Json.obj fs => "\x7b" ++ pyReprFields fs ++ "\x7d"
/-- Comma-separated reprs of list elements. -/
def pyReprList : List Json → String
  | [] => ""
  | [x] => pyRepr x
  | x :: xs => pyRepr x ++ ", " ++ pyReprList xs
/-- Comma-separated reprs of dict entries. -/
def pyReprFields : List (String × Json) → String
  | [] => ""
  | [(k, v)] => pyQuote ++ k ++ pyQuote ++ ": " ++ pyRepr v
  | (k, v) :: fs => pyQuote ++ k ++ pyQuote ++ ": " ++ pyRepr v ++ ", " ++ pyReprFields fs
end

/-- Python str() of a parsed JSON value: a string maps to itself, anything
else to its repr (None to "None", True to "True", integers to their
digits). -/
def pyStr : Json → String
  | Json.str s => s
  | j => pyRepr j

/-- Models a Python or-chain a1 or a2 or ... or default, where each ai is
an item.get(key) result (absent keys give None, which is falsy). -/
def firstTruthy : List (Option Json) → Json → Json
  | [], dflt => dflt
  | o :: rest, dflt =>
    match o with
    | some v => if truthy v then v else firstTruthy rest dflt
    | none => firstTruthy rest dflt

/- ===== src/main.py: URL building and the retrying fetcher ===== -/

/-- GAME_ENDPOINTS from src/main.py lines 50 to 54: short command mapped to
the enka API path template. -/
def GAME_ENDPOINTS : List (String × String) :=
  [("gen", "api/uid/\x7buid\x7d"),
   ("hsr", "api/hsr/uid/\x7buid\x7d"),
   ("zzz", "api/zzz/uid/\x7buid\x7d")]

/-- ENKA_BASE from src/main.py line 56. -/
def ENKA_BASE : String := "https://enka.network"

/-- Python str.rstrip applied to the slash character. -/
def rstripSlash (s : String) : String :=
  String.mk (List.reverse (List.dropWhile (fun c => c = Char.ofNat 47) (List.reverse s.data)))

/-- Python str.lstrip applied to the slash character. -/
def lstripSlash (s : String) : String :=
  String.mk (List.dropWhile (fun c => c = Char.ofNat 47) s.data)

/-- First binding of a key in a string association list (dict lookup for
GAME_ENDPOINTS). -/
def lookupStr : List (String × String) → String → Option String
  | [], _ => none
  | (k, v) :: rest, key => if k = key then some v else lookupStr rest key

/-- The five characters of the uid placeholder of the endpoint templates:
an opening brace (Char.ofNat 123), the letters u, i, d, and a closing
brace (Char.ofNat 125). -/
def fmtPattern : List Char :=
  [Char.ofNat 123, Char.ofNat 117, Char.ofNat 105, Char.ofNat 100, Char.ofNat 125]

/-- Worker for the str.format substitution, walking the template one
character at a time; the first argument counts characters of a matched
placeholder still to be consumed. -/
def substUidGo (uid : List Char) : Nat → List Char → List Char
  | _, [] => []
  | skip + 1, _ :: rest => substUidGo uid skip rest
  | 0, c :: rest =>
    if c :: rest.take 4 = fmtPattern then uid ++ substUidGo uid 4 rest
    else c :: substUidGo uid 0 rest

/-- Python str.format substitution of the single field of the endpoint
templates: every occurrence of the brace-delimited uid placeholder is
replaced by the uid value, left to right. -/
def substUid (uid : List Char) (tmpl : List Char) : List Char :=
  substUidGo uid 0 tmpl

/-- build_enka_url from src/main.py lines 58 to 62.  Raising ValueError is
modelled as Except.error carrying the message. -/
def build_enka_url (game : String) (uid : String) : Except String String :=
  match lookupStr GAME_ENDPOINTS game with
  | none => Except.error "Unsupported game"
  | some tmpl =>
      Except.ok (rstripSlash ENKA_BASE ++ "/" ++ lstripSlash (String.mk (substUid uid.data tmpl.data)))

/-- Outcome of one requests.get call: a raised transport error
(requests.exceptions.RequestException) or an HTTP response with a status
code and a parsed body. -/
inductive GetResult where
  | transportError
  | response (status : Nat) (body : Json)

/-- Observable outcome of one run of the fetch loop: the returned value,
the number of GET calls performed, and the sleep durations requested, in
order. -/
structure FetchOutcome where
  result : Option Json
  attempts : Nat
  sleeps : List ℚ

/-- The loop body of fetch_enka_data_sync (src/main.py lines 67 to 79),
over the remaining attempt numbers (Python: range(1, retries + 1)).
A non-200 status returns None at once; a transport error sleeps
backoff * attempt and continues when attempt < retries, and returns None
otherwise.  A 200 response returns the parsed body. -/
def fetchLoop (get : String → Nat → GetResult) (url : String) (backoff : ℚ)
    (retries : Nat) : List Nat → FetchOutcome
  | [] => ⟨none, 0, []⟩
  | attempt :: rest =>
    match get url attempt with
    | GetResult.response s body =>
        if s ≠ 200 then ⟨none, 1, []⟩ else ⟨some body, 1, []⟩
    | GetResult.transportError =>
        if attempt < retries then
          let o := fetchLoop get url backoff retries rest
          ⟨o.result, o.attempts + 1, backoff * (attempt : ℚ) :: o.sleeps⟩
        else ⟨none, 1, []⟩

/-- fetch_enka_data_sync from src/main.py lines 64 to 79.  The defaults in
the source are timeout 30, retries 3, backoff 1.5; timeout is forwarded to
requests.get and has no further effect on control flow, so it is not a
parameter here.  The oracle get stands for requests.get at each attempt. -/
def fetch_enka_data_sync (game : String) (uid : String)
    (get : String → Nat → GetResult) (retries : Nat) (backoff : ℚ) :
    Except String FetchOutcome :=
  match build_enka_url game uid with
  | Except.error e => Except.error e
  | Except.ok url => Except.ok (fetchLoop get url backoff retries (List.range' 1 retries))

/-- Default retry count of fetch_enka_data_sync (src/main.py line 64). -/
def defaultRetries : Nat := 3

/-- Default backoff of fetch_enka_data_sync (src/main.py line 64),
the float 1.5 as a rational. -/
def defaultBackoff : ℚ := 3 / 2

/- ===== src/main.py: the Schema Sniffer ===== -/

/-- Normalized character record produced by the sniffer:
a display name and the raw payload subtree. -/
structure CharacterRecord where
  name : String
  raw : Json

/-- Per-item normalization of step 1 (src/main.py lines 92 to 96): skip
non-dict items; the display name is the or-chain over the keys name,
avatarName, icon, id with fallback "Unknown", passed through str(). -/
def normStep1 (item : Json) : Option CharacterRecord :=
  match item with
  | Json.obj _ =>
      some ⟨pyStr (firstTruthy
        [jget item "name", jget item "avatarName", jget item "icon", jget item "id"]
        (Json.str "Unknown")), item⟩
  | _ => none

/-- Step 1 of extract_characters_from_response (src/main.py lines 90 to
98): the avatarInfoList field, when it is a list. -/
def step1 (data : Json) : List CharacterRecord :=
  match jget data "avatarInfoList" with
  | some (Json.arr items) => items.filterMap normStep1
  | _ => []

/-- Per-item normalization of step 2 (src/main.py lines 105 to 109): skip
non-dict items; or-chain over name, avatarName, character, icon with
fallback "Unknown". -/
def normStep2 (item : Json) : Option CharacterRecord :=
  match item with
  | Json.obj _ =>
      some ⟨pyStr (firstTruthy
        [jget item "name", jget item "avatarName", jget item "character", jget item "icon"]
        (Json.str "Unknown")), item⟩
  | _ => none

/-- The key list of step 2 (src/main.py line 101). -/
def step2Keys : List String := ["avatars", "characters", "data", "playerInfo", "player"]

/-- Step 2 of extract_characters_from_response (src/main.py lines 101 to
111): scan the keys in order; for a key whose value is a non-empty list,
normalize it and return the result when non-empty, otherwise keep
scanning. -/
def step2Go (data : Json) : List String → List CharacterRecord
  | [] => []
  | k :: rest =>
    match jget data k with
    | some (Json.arr items) =>
        if items.isEmpty then step2Go data rest
        else
          let out := items.filterMap normStep2
          if out.isEmpty then step2Go data rest else out
    | _ => step2Go data rest

/-- Step 2 entry point. -/
def step2 (data : Json) : List CharacterRecord :=
  step2Go data step2Keys

/-- The marker keys of the recursive search (src/main.py line 119). -/
def markerKeys : List String := ["name", "avatarName", "icon", "id", "avatarId", "character"]

/-- Whether a payload element is a dict containing at least one marker key
(src/main.py lines 118 to 119; key containment, not truthiness). -/
def hasMarker (el : Json) : Bool :=
  match el with
  | Json.obj _ => markerKeys.any (fun k => (jget el k).isSome)
  | _ => false

mutual
/-- search_for_list from src/main.py lines 114 to 128: on a list, keep the
dict elements holding a marker key and return them when any; on a dict,
scan the values in order and return the first non-empty search result;
scalars give nothing.  Lists nested directly inside lists are not
descended into, exactly as in the source. -/
def search_for_list : Json → Option (List Json)
  | Json.arr els =>
      let candidates := els.filter hasMarker
      if candidates.isEmpty then none else some candidates
  | Json.obj fs => search_fields fs
  | _ => none
/-- The loop over d.values() in search_for_list (src/main.py lines 124 to
127). -/
def search_fields : List (String × Json) → Option (List Json)
  | [] => none
  | (_, v) :: rest =>
    match search_for_list v with
    | some res => if res.isEmpty then search_fields rest else some res
    | none => search_fields rest
end

/-- Per-item normalization of step 3 (src/main.py lines 133 to 135):
or-chain over name, avatarName, icon with fallback "Unknown"; the search
only yields dicts, so no isinstance filter appears in the source. -/
def normStep3 (item : Json) : CharacterRecord :=
  ⟨pyStr (firstTruthy
    [jget item "name", jget item "avatarName", jget item "icon"]
    (Json.str "Unknown")), item⟩

/-- Step 3 of extract_characters_from_response (src/main.py lines 130 to
137): normalize the found list when the search returned one. -/
def step3 (data : Json) : List CharacterRecord :=
  match search_for_list data with
  | some found =>
      if found.isEmpty then []
      else
        let out := found.map normStep3
        if out.isEmpty then [] else out
  | none => []

/-- extract_characters_from_response from src/main.py lines 85 to 139: a
non-dict payload gives []; otherwise the three steps run in order and the
first non-empty result is returned (the early returns of the source become
nested conditionals). -/
def extract_characters_from_response (data : Json) : List CharacterRecord :=
  match data with
  | Json.obj _ =>
      let s1 := step1 data
      if s1.isEmpty then
        let s2 := step2 data
        if s2.isEmpty then step3 data else s2
      else s1
  | _ => []

/- ===== src/bot.py: credential resolution and the polymorphic invoker ===== -/

/-- Stored per-user credential record (users.json entry) as read by
make_genshin_client.  dict.get returns None for a missing key and the
source only tests the fields for truthiness, so an absent field and an
empty string behave identically; both are modelled by the empty string. -/
structure StoredCreds where
  ltuid : String
  ltoken : String
  cookie_token : String

/-- Credential resolution of make_genshin_client, src/bot.py lines 52 to
63: the cookie payload handed to genshin.Client.  Raising ValueError is
modelled as Except.error carrying the message.  The constructor-pattern
fallback of lines 66 to 77 concerns the external genshin.Client signature
and passes the cookies through unchanged, so the payload below is exactly
what the upstream client receives. -/
def make_genshin_client (creds : StoredCreds) : Except String (List (String × String)) :=
  if creds.ltuid ≠ "" ∧ creds.ltoken ≠ "" then
    Except.ok [("ltuid", creds.ltuid), ("ltoken", creds.ltoken)]
  else if creds.cookie_token ≠ "" then
    Except.ok [("cookie_token", creds.cookie_token)]
  else
    Except.error "No credentials stored for this user."

/-- A raised Python exception, split into the TypeError class (caught
specially by try_calls) and everything else. -/
inductive PyErr where
  | typeError (msg : String)
  | otherError (msg : String)

/-- Behaviour of one callable member of the client: the outcome of calling
it with the supplied arguments, and the outcome of calling it with no
arguments. -/
structure Callable (A : Type) where
  withArgs : Except PyErr A
  noArgs : Except PyErr A

/-- Failure of try_calls: either the re-raised last exception, or the
RuntimeError built from the candidate list when no name was callable. -/
inductive TryCallsErr where
  | exc (e : PyErr)
  | noFunctionFound (names : List String)

/-- The loop of try_calls (src/bot.py lines 82 to 101) over the remaining
names, carrying last_exc.  getattr(obj, name, None) followed by the
callable test is modelled by the client map: none stands for a missing or
non-callable attribute. -/
def tryCallsGo {A : Type} (client : String → Option (Callable A))
    (names0 : List String) : List String → Option PyErr → Except TryCallsErr A
  | [], last =>
    match last with
    | some e => Except.error (TryCallsErr.exc e)
    | none => Except.error (TryCallsErr.noFunctionFound names0)
  | name :: rest, last =>
    match client name with
    | none => tryCallsGo client names0 rest last
    | some fn =>
      match fn.withArgs with
      | Except.ok v => Except.ok v
      | Except.error e =>
        match e with
        | PyErr.typeError _ =>
          match fn.noArgs with
          | Except.ok v => Except.ok v
          | Except.error e2 => tryCallsGo client names0 rest (some e2)
        | PyErr.otherError _ => tryCallsGo client names0 rest (some e)

/-- try_calls from src/bot.py lines 81 to 101. -/
def try_calls {A : Type} (client : String → Option (Callable A))
    (names : List String) : Except TryCallsErr A :=
  tryCallsGo client names names none

/- ===== Helper relations and lemmas ===== -/

/-- The subtree relation on payloads: Occurs s d holds when s is d itself
or a value reachable from d through array elements and object field
values.  Used to state that every raw field the sniffer returns is taken
from the input payload. -/
inductive Occurs : Json → Json → Prop
  | refl (j : Json) : Occurs j j
  | inArr {s x : Json} {xs : List Json} : Occurs s x → x ∈ xs → Occurs s (Json.arr xs)
  | inObj {s v : Json} {k : String} {fs : List (String × Json)} :
      Occurs s v → (k, v) ∈ fs → Occurs s (Json.obj fs)

/-- A successful dict lookup returns a binding of the field list. -/
theorem lookupField_mem : ∀ {fs : List (String × Json)} {key : String} {v : Json},
    lookupField fs key = some v → (key, v) ∈ fs := by
  intro fs
  induction fs with
  | nil => intro key v h; simp [lookupField] at h
  | cons p rest ih =>
    intro key v h
    obtain ⟨k, w⟩ := p
    rw [lookupField] at h
    split at h
    · next hk =>
      injection h with h
      subst hk; subst h
      exact List.mem_cons_self _ _
    · exact List.mem_cons_of_mem _ (ih h)

/-- A value obtained by item.get occurs in the item. -/
theorem occurs_of_jget {d : Json} {k : String} {v : Json} (h : jget d k = some v) :
    Occurs v d := by
  cases d <;> simp [jget] at h
  case obj fs => exact Occurs.inObj (Occurs.refl v) (lookupField_mem h)

/-- An element of a list obtained by item.get occurs in the item. -/
theorem occurs_arr_item {d : Json} {k : String} {items : List Json} {item : Json}
    (h : jget d k = some (Json.arr items)) (hm : item ∈ items) : Occurs item d := by
  cases d <;> simp [jget] at h
  case obj fs => exact Occurs.inObj (Occurs.inArr (Occurs.refl item) hm) (lookupField_mem h)

/-- Step-1 normalization keeps the item as the raw field and only accepts
dicts. -/
theorem normStep1_eq : ∀ {item : Json} {r : CharacterRecord},
    normStep1 item = some r → r.raw = item ∧ item.isObj = true := by
  intro item r h
  cases item <;> simp only [normStep1, Option.some.injEq] at h <;> try exact absurd h (by simp)
  case obj fs => subst h; exact ⟨rfl, rfl⟩

/-- Step-2 normalization keeps the item as the raw field and only accepts
dicts. -/
theorem normStep2_eq : ∀ {item : Json} {r : CharacterRecord},
    normStep2 item = some r → r.raw = item ∧ item.isObj = true := by
  intro item r h
  cases item <;> simp only [normStep2, Option.some.injEq] at h <;> try exact absurd h (by simp)
  case obj fs => subst h; exact ⟨rfl, rfl⟩

/-- Every record produced by step 1 has a dict raw field taken from the
payload. -/
theorem step1_mem {data : Json} {r : CharacterRecord} (h : r ∈ step1 data) :
    r.raw.isObj = true ∧ Occurs r.raw data := by
  unfold step1 at h
  split at h
  · next items heq =>
    rw [List.mem_filterMap] at h
    obtain ⟨item, hitem, hnorm⟩ := h
    obtain ⟨hraw, hobj⟩ := normStep1_eq hnorm
    rw [hraw]
    exact ⟨hobj, occurs_arr_item heq hitem⟩
  · simp at h

/-- Every record produced by the step-2 scan comes from a list field of
the payload via step-2 normalization. -/
theorem step2Go_mem {data : Json} {r : CharacterRecord} : ∀ {keys : List String},
    r ∈ step2Go data keys →
    ∃ k items item, jget data k = some (Json.arr items) ∧ item ∈ items ∧
      normStep2 item = some r := by
  intro keys
  induction keys with
  | nil => intro h; simp [step2Go] at h
  | cons k rest ih =>
    intro h
    rw [step2Go] at h
    split at h
    · next items heq =>
      split at h
      · exact ih h
      · simp only at h
        split at h
        · exact ih h
        · rw [List.mem_filterMap] at h
          obtain ⟨item, hi, hn⟩ := h
          exact ⟨k, items, item, heq, hi, hn⟩
    · exact ih h

/-- Every record produced by step 2 has a dict raw field taken from the
payload. -/
theorem step2_mem {data : Json} {r : CharacterRecord} (h : r ∈ step2 data) :
    r.raw.isObj = true ∧ Occurs r.raw data := by
  obtain ⟨k, items, item, heq, hi, hn⟩ := step2Go_mem h
  obtain ⟨hraw, hobj⟩ := normStep2_eq hn
  rw [hraw]
  exact ⟨hobj, occurs_arr_item heq hi⟩

/-- Marker-bearing elements are dicts. -/
theorem hasMarker_isObj : ∀ {x : Json}, hasMarker x = true → x.isObj = true := by
  intro x h
  cases x <;> simp_all [hasMarker, Json.isObj]

/-- Every payload has positive size. -/
theorem json_sizeOf_pos (d : Json) : 0 < sizeOf d := by
  cases d <;> simp_arith

/-- Soundness of the recursive search, by strong induction on the size of
the payload: a found list is non-empty, and each of its elements is a
marker-bearing dict occurring in the payload. -/
theorem search_spec_aux : ∀ (n : Nat) (d : Json), sizeOf d ≤ n →
    ∀ res, search_for_list d = some res →
      res ≠ [] ∧ ∀ x ∈ res, hasMarker x = true ∧ Occurs x d := by
  intro n
  induction n with
  | zero =>
    intro d hd res h
    exact absurd (json_sizeOf_pos d) (by omega)
  | succ n ih =>
    intro d hd res h
    cases d with
    | null => simp [search_for_list] at h
    | bool b => simp [search_for_list] at h
    | num m => simp [search_for_list] at h
    | str s => simp [search_for_list] at h
    | arr els =>
      rw [search_for_list] at h
      split at h
      · exact absurd h (by simp)
      · next hne =>
        injection h with h
        subst h
        refine ⟨fun hnil => hne (by simp [hnil]), fun x hx => ?_⟩
        have hx2 := List.mem_filter.mp hx
        exact ⟨hx2.2, Occurs.inArr (Occurs.refl x) hx2.1⟩
    | obj fs =>
      rw [search_for_list] at h
      have hmem : ∀ k v, (k, v) ∈ fs → sizeOf v ≤ n := by
        intro k v hkv
        have h1 : sizeOf (k, v) < sizeOf fs := List.sizeOf_lt_of_mem hkv
        have h2 : sizeOf (Json.obj fs) = 1 + sizeOf fs := by simp_arith
        have h3 : sizeOf (k, v) = 1 + sizeOf k + sizeOf v := by simp_arith
        omega
      have inner : ∀ (gs : List (String × Json)), (∀ k v, (k, v) ∈ gs → sizeOf v ≤ n) →
          ∀ res2, search_fields gs = some res2 →
            res2 ≠ [] ∧ ∀ x ∈ res2, hasMarker x = true ∧ ∃ k v, (k, v) ∈ gs ∧ Occurs x v := by
        intro gs
        induction gs with
        | nil => intro _ res2 h2; simp [search_fields] at h2
        | cons p rest ihg =>
          intro hsz res2 h2
          obtain ⟨k, v⟩ := p
          rw [search_fields] at h2
          cases hv : search_for_list v with
          | none =>
            rw [hv] at h2
            obtain ⟨hne, hall⟩ :=
              ihg (fun k2 v2 hm => hsz k2 v2 (List.mem_cons_of_mem _ hm)) res2 h2
            refine ⟨hne, fun x hx => ⟨(hall x hx).1, ?_⟩⟩
            obtain ⟨k2, v2, hm2, ho2⟩ := (hall x hx).2
            exact ⟨k2, v2, List.mem_cons_of_mem _ hm2, ho2⟩
          | some res0 =>
            simp only [hv] at h2
            split at h2
            · obtain ⟨hne, hall⟩ :=
                ihg (fun k2 v2 hm => hsz k2 v2 (List.mem_cons_of_mem _ hm)) res2 h2
              refine ⟨hne, fun x hx => ⟨(hall x hx).1, ?_⟩⟩
              obtain ⟨k2, v2, hm2, ho2⟩ := (hall x hx).2
              exact ⟨k2, v2, List.mem_cons_of_mem _ hm2, ho2⟩
            · injection h2 with h2
              subst h2
              have hres0 := ih v (hsz k v (List.mem_cons_self _ _)) res0 hv
              refine ⟨hres0.1, fun x hx => ⟨(hres0.2 x hx).1, ?_⟩⟩
              exact ⟨k, v, List.mem_cons_self _ _, (hres0.2 x hx).2⟩
      obtain ⟨hne, hall⟩ := inner fs hmem res h
      refine ⟨hne, fun x hx => ⟨(hall x hx).1, ?_⟩⟩
      obtain ⟨k, v, hkv, hocc⟩ := (hall x hx).2
      exact Occurs.inObj hocc hkv

/-- Soundness of the recursive search. -/
theorem search_spec {d : Json} {res : List Json} (h : search_for_list d = some res) :
    res ≠ [] ∧ ∀ x ∈ res, hasMarker x = true ∧ Occurs x d :=
  search_spec_aux (sizeOf d) d (le_refl _) res h

/-- Every record produced by step 3 has a dict raw field taken from the
payload. -/
theorem step3_mem {data : Json} {r : CharacterRecord} (h : r ∈ step3 data) :
    r.raw.isObj = true ∧ Occurs r.raw data := by
  unfold step3 at h
  split at h
  · next found heq =>
    split at h
    · simp at h
    · simp only at h
      split at h
      · simp at h
      · rw [List.mem_map] at h
        obtain ⟨x, hx, hr⟩ := h
        have hs := (search_spec heq).2 x hx
        rw [← hr]
        exact ⟨hasMarker_isObj hs.1, hs.2⟩
  · simp at h

/- ===== Claim C1 ===== -/

/-- Claim C1 (amended).  The original claim states that a non-success
status code, like a transport error, triggers the backoff wait and a
retry.  In the source a non-200 status returns None at once: only a
transport error waits backoff * attempt and retries, up to the retry
ceiling.  Stated here for the default ceiling of 3 attempts: a first
attempt answered with a non-200 status ends the fetch after one GET with
no sleeps, while transport errors on every attempt produce exactly 3 GETs
with sleeps backoff * 1 and backoff * 2 before the unavailable result. -/
theorem C1_fetch_nonsuccess_no_retry (game uid url : String)
    (get : String → Nat → GetResult) (backoff : ℚ)
    (hurl : build_enka_url game uid = Except.ok url) :
    (∀ s body, s ≠ 200 → get url 1 = GetResult.response s body →
      fetch_enka_data_sync game uid get defaultRetries backoff =
        Except.ok ⟨none, 1, []⟩)
    ∧ ((∀ a, get url a = GetResult.transportError) →
      fetch_enka_data_sync game uid get defaultRetries backoff =
        Except.ok ⟨none, defaultRetries, [backoff * 1, backoff * 2]⟩) := by
  constructor
  · intro s body hs hget
    simp only [fetch_enka_data_sync, hurl, defaultRetries]
    have hr : List.range' 1 3 = [1, 2, 3] := rfl
    rw [hr]
    simp only [fetchLoop, hget]
    simp [hs]
  · intro hget
    simp only [fetch_enka_data_sync, hurl, defaultRetries]
    have hr : List.range' 1 3 = [1, 2, 3] := rfl
    rw [hr]
    simp [fetchLoop, hget]

/-- Claim C1, counterexample to the original wording: an endpoint whose
every response carries status 500 makes fetch_enka_data_sync return the
unavailable result after a single GET with no sleep, although the default
retry ceiling would allow 3 attempts. -/
theorem C1_counterexample :
    fetch_enka_data_sync "gen" "123" (fun _ _ => GetResult.response 500 Json.null)
      defaultRetries defaultBackoff = Except.ok ⟨none, 1, []⟩ ∧
    1 < defaultRetries :=
  ⟨rfl, by decide⟩

/-- Claim C1, witness for the amended theorem at concrete inputs. -/
theorem C1_witness :
    fetch_enka_data_sync "gen" "123" (fun _ _ => GetResult.response 500 Json.null)
      defaultRetries defaultBackoff = Except.ok ⟨none, 1, []⟩ ∧
    fetch_enka_data_sync "gen" "123" (fun _ _ => GetResult.transportError)
      defaultRetries defaultBackoff =
      Except.ok ⟨none, defaultRetries, [defaultBackoff * 1, defaultBackoff * 2]⟩ :=
  ⟨(C1_fetch_nonsuccess_no_retry "gen" "123" "https://enka.network/api/uid/123"
      (fun _ _ => GetResult.response 500 Json.null) defaultBackoff rfl).1
      500 Json.null (by decide) rfl,
   (C1_fetch_nonsuccess_no_retry "gen" "123" "https://enka.network/api/uid/123"
      (fun _ _ => GetResult.transportError) defaultBackoff rfl).2
      (fun _ => rfl)⟩

/- ===== Claim C7 ===== -/

/-- Claim C7.  For a supported endpoint key: an endpoint whose first two
attempts raise transport errors and whose third attempt answers 200
yields the parsed payload after 3 GETs, and an endpoint raising a
transport error on every attempt yields the unavailable result (None)
after exactly the default retry ceiling of GETs; in both cases the fetch
returns a value (Except.ok) rather than propagating the exception. -/
theorem C7_fetch_retry_behaviour (game uid url : String)
    (get : String → Nat → GetResult) (backoff : ℚ) (body : Json)
    (hurl : build_enka_url game uid = Except.ok url) :
    (get url 1 = GetResult.transportError → get url 2 = GetResult.transportError →
      get url 3 = GetResult.response 200 body →
      ∃ o : FetchOutcome,
        fetch_enka_data_sync game uid get defaultRetries backoff = Except.ok o ∧
        o.result = some body ∧ o.attempts = 3)
    ∧ ((∀ a, get url a = GetResult.transportError) →
      ∃ o : FetchOutcome,
        fetch_enka_data_sync game uid get defaultRetries backoff = Except.ok o ∧
        o.result = none ∧ o.attempts = defaultRetries) := by
  have hr : List.range' 1 3 = [1, 2, 3] := rfl
  constructor
  · intro h1 h2 h3
    refine ⟨fetchLoop get url backoff 3 [1, 2, 3], ?_, ?_, ?_⟩
    · simp only [fetch_enka_data_sync, hurl, defaultRetries]
      rw [hr]
    · simp [fetchLoop, h1, h2, h3]
    · simp [fetchLoop, h1, h2, h3]
  · intro hget
    refine ⟨fetchLoop get url backoff 3 [1, 2, 3], ?_, ?_, ?_⟩
    · simp only [fetch_enka_data_sync, hurl, defaultRetries]
      rw [hr]
    · simp [fetchLoop, hget]
    · simp [fetchLoop, hget, defaultRetries]

/-- Claim C7, witness at concrete oracles: one failing twice then
answering 200, one always failing. -/
theorem C7_witness :
    (∃ o : FetchOutcome,
      fetch_enka_data_sync "gen" "123"
        (fun _ a => if a ≤ 2 then GetResult.transportError
          else GetResult.response 200 (Json.obj [])) defaultRetries defaultBackoff =
        Except.ok o ∧ o.result = some (Json.obj []) ∧ o.attempts = 3)
    ∧ (∃ o : FetchOutcome,
      fetch_enka_data_sync "gen" "123" (fun _ _ => GetResult.transportError)
        defaultRetries defaultBackoff = Except.ok o ∧
      o.result = none ∧ o.attempts = defaultRetries) :=
  ⟨(C7_fetch_retry_behaviour "gen" "123" "https://enka.network/api/uid/123"
      (fun _ a => if a ≤ 2 then GetResult.transportError
        else GetResult.response 200 (Json.obj [])) defaultBackoff (Json.obj []) rfl).1
      rfl rfl rfl,
   (C7_fetch_retry_behaviour "gen" "123" "https://enka.network/api/uid/123"
      (fun _ _ => GetResult.transportError) defaultBackoff Json.null rfl).2
      (fun _ => rfl)⟩

/- ===== Claim C2 ===== -/

/-- Payload whose only route to a character list is the recursive search:
a sequence holding one dict with a marker key and one dict without any. -/
def c2Payload : Json :=
  Json.obj [("payload", Json.arr
    [Json.obj [("name", Json.str "A")], Json.obj [("foo", Json.str "B")]])]

/-- Claim C2, counterexample to the original wording: the element lacking
every marker key is dropped by the search, not normalized with a fallback
name, so the sniffer returns one record where the claim predicts two. -/
theorem C2_counterexample :
    extract_characters_from_response c2Payload =
      [⟨"A", Json.obj [("name", Json.str "A")]⟩] ∧
    CharacterRecord.mk "Unknown" (Json.obj [("foo", Json.str "B")]) ∉
      extract_characters_from_response c2Payload := by
  have he : extract_characters_from_response c2Payload =
      [⟨"A", Json.obj [("name", Json.str "A")]⟩] := rfl
  refine ⟨he, ?_⟩
  intro hmem
  rw [he] at hmem
  rw [List.mem_singleton] at hmem
  injection hmem with h1 h2
  exact absurd h1 (by decide)

/-- Claim C2 (amended).  The original claim states that the entire found
sequence is treated as the character list, elements lacking the marker
key included.  In the source only the elements that are dicts holding a
marker key become candidates: when steps 1 and 2 produce nothing and the
search returns a list, the sniffer output is exactly the step-3
normalization of that list, and every element of it bears a marker key
(elements without one are dropped). -/
theorem C2_search_keeps_only_marker_elements (data : Json) (found : List Json)
    (hobj : data.isObj = true) (h1 : step1 data = []) (h2 : step2 data = [])
    (hs : search_for_list data = some found) :
    extract_characters_from_response data = found.map normStep3 ∧
    ∀ x ∈ found, hasMarker x = true := by
  obtain ⟨hne, hall⟩ := search_spec hs
  refine ⟨?_, fun x hx => (hall x hx).1⟩
  cases data with
  | obj fs =>
    cases found with
    | nil => exact absurd rfl hne
    | cons a l =>
      simp only [extract_characters_from_response, h1, h2, step3, hs]
      simp
  | null => simp [Json.isObj] at hobj
  | bool b => simp [Json.isObj] at hobj
  | num m => simp [Json.isObj] at hobj
  | str s => simp [Json.isObj] at hobj
  | arr xs => simp [Json.isObj] at hobj

/-- Claim C2, witness for the amended theorem at the concrete payload. -/
theorem C2_witness :
    extract_characters_from_response c2Payload =
      List.map normStep3 [Json.obj [("name", Json.str "A")]] ∧
    ∀ x ∈ [Json.obj [("name", Json.str "A")]], hasMarker x = true :=
  C2_search_keeps_only_marker_elements c2Payload [Json.obj [("name", Json.str "A")]]
    rfl rfl rfl rfl

/- ===== Claim C3 ===== -/

/-- Claim C3, counterexample to the original wording: a record holding
both the legacy ltuid+ltoken shape and the cookie-token shape resolves to
a payload holding only the legacy shape; the cookie shape is discarded
rather than included. -/
theorem C3_counterexample :
    make_genshin_client ⟨"1", "2", "3"⟩ = Except.ok [("ltuid", "1"), ("ltoken", "2")] ∧
    ("cookie_token", "3") ∉ [(("ltuid" : String), ("1" : String)), ("ltoken", "2")] :=
  ⟨rfl, by decide⟩

/-- Claim C3 (amended).  The original claim states that every recognized
shape present is included in the payload.  In the source the shapes are
tried in priority order and only the first complete one is used: when
both ltuid and ltoken are non-empty the payload is exactly the legacy
pair, whatever cookie_token holds; the cookie-token shape is used only
when the legacy pair is incomplete. -/
theorem C3_first_shape_wins (c : StoredCreds) :
    (c.ltuid ≠ "" → c.ltoken ≠ "" →
      make_genshin_client c = Except.ok [("ltuid", c.ltuid), ("ltoken", c.ltoken)])
    ∧ (¬(c.ltuid ≠ "" ∧ c.ltoken ≠ "") → c.cookie_token ≠ "" →
      make_genshin_client c = Except.ok [("cookie_token", c.cookie_token)]) := by
  constructor
  · intro h1 h2
    unfold make_genshin_client
    rw [if_pos ⟨h1, h2⟩]
  · intro h1 h2
    unfold make_genshin_client
    rw [if_neg h1, if_pos h2]

/-- Claim C3, witness for the amended theorem at a record holding all
three credential fields. -/
theorem C3_witness :
    make_genshin_client ⟨"1", "2", "3"⟩ = Except.ok [("ltuid", "1"), ("ltoken", "2")] :=
  (C3_first_shape_wins ⟨"1", "2", "3"⟩).1 (by decide) (by decide)

/- ===== Claim C6 ===== -/

/-- Claim C6.  A stored record holding at least one recognized credential
shape (the complete legacy pair, or a cookie token) resolves to a
non-empty authentication payload; a record holding none fails with the
no-credentials ValueError. -/
theorem C6_resolve_credentials (c : StoredCreds) :
    (((c.ltuid ≠ "" ∧ c.ltoken ≠ "") ∨ c.cookie_token ≠ "") →
      ∃ payload, make_genshin_client c = Except.ok payload ∧ payload ≠ [])
    ∧ (¬((c.ltuid ≠ "" ∧ c.ltoken ≠ "") ∨ c.cookie_token ≠ "") →
      make_genshin_client c = Except.error "No credentials stored for this user.") := by
  constructor
  · intro h
    unfold make_genshin_client
    split_ifs with hl hc
    · exact ⟨_, rfl, by simp⟩
    · exact ⟨_, rfl, by simp⟩
    · tauto
  · intro h
    unfold make_genshin_client
    split_ifs with hl hc
    · tauto
    · tauto
    · rfl

/-- Claim C6, witness: a cookie-only record resolves to a non-empty
payload and an empty record fails with the no-credentials error. -/
theorem C6_witness :
    (∃ payload, make_genshin_client ⟨"", "", "ck"⟩ = Except.ok payload ∧ payload ≠ []) ∧
    make_genshin_client ⟨"", "", ""⟩ = Except.error "No credentials stored for this user." :=
  ⟨(C6_resolve_credentials ⟨"", "", "ck"⟩).1 (by decide),
   (C6_resolve_credentials ⟨"", "", ""⟩).2 (by decide)⟩

/- ===== Claims C4 and C5: the polymorphic invoker ===== -/

/-- Whether a call outcome is a raised exception. -/
def exceptFailed {A : Type} : Except PyErr A → Bool
  | Except.ok _ => false
  | Except.error _ => true

/-- A callable candidate whose invocation fails: the call with the
supplied arguments does not succeed, and when it raised a TypeError the
no-argument retry does not succeed either. -/
def callableFails {A : Type} (fn : Callable A) : Prop :=
  exceptFailed fn.withArgs = true ∧
  (∀ msg, fn.withArgs = Except.error (PyErr.typeError msg) → exceptFailed fn.noArgs = true)

/-- The exceptions try_calls records while processing one callable
candidate, in the order they are raised. -/
def candidateErrors {A : Type} (fn : Callable A) : List PyErr :=
  match fn.withArgs with
  | Except.ok _ => []
  | Except.error e =>
    match e with
    | PyErr.typeError _ =>
      match fn.noArgs with
      | Except.ok _ => []
      | Except.error e2 => [e, e2]
    | PyErr.otherError _ => [e]

/-- All exceptions try_calls encounters over a candidate list, in order,
assuming no call succeeds. -/
def clientErrors {A : Type} (client : String → Option (Callable A)) :
    List String → List PyErr
  | [] => []
  | n :: rest =>
    (match client n with
     | none => []
     | some fn => candidateErrors fn) ++ clientErrors client rest

/-- The result try_calls produces once the candidates are exhausted, as a
function of the exceptions encountered. -/
def lastExcResult {A : Type} (names0 : List String) (errs : List PyErr) :
    Except TryCallsErr A :=
  match errs.getLast? with
  | some e => Except.error (TryCallsErr.exc e)
  | none => Except.error (TryCallsErr.noFunctionFound names0)

/-- Exception lists with the same last element give the same result. -/
theorem lastExcResult_ext {A : Type} (names0 : List String) {xs ys : List PyErr}
    (h : xs.getLast? = ys.getLast?) :
    (lastExcResult names0 xs : Except TryCallsErr A) = lastExcResult names0 ys := by
  unfold lastExcResult
  rw [h]

/-- A failing callable records at least one exception. -/
theorem candidateErrors_ne_nil {A : Type} {fn : Callable A} (h : callableFails fn) :
    candidateErrors fn ≠ [] := by
  obtain ⟨h1, h2⟩ := h
  cases hw : fn.withArgs with
  | ok v =>
    rw [hw] at h1
    exact absurd h1 (by simp [exceptFailed])
  | error e =>
    cases e with
    | typeError msg =>
      cases hn : fn.noArgs with
      | ok v =>
        have h3 := h2 msg hw
        rw [hn] at h3
        exact absurd h3 (by simp [exceptFailed])
      | error e2 => simp [candidateErrors, hw, hn]
    | otherError msg => simp [candidateErrors, hw]

/-- When every callable candidate fails, try_calls runs the whole loop and
finishes from the exceptions it encountered: the last one is re-raised,
and when none was recorded the no-function RuntimeError is raised. -/
theorem tryCallsGo_all_fail {A : Type} (client : String → Option (Callable A))
    (names0 : List String) : ∀ (names : List String) (last : Option PyErr),
    (∀ n ∈ names, ∀ fn, client n = some fn → callableFails fn) →
    tryCallsGo client names0 names last =
      lastExcResult names0 (last.toList ++ clientErrors client names) := by
  intro names
  induction names with
  | nil =>
    intro last hf
    cases last with
    | none => rfl
    | some e =>
      show Except.error (TryCallsErr.exc e) = lastExcResult names0 [e]
      rfl
  | cons n rest ih =>
    intro last hf
    rw [tryCallsGo]
    cases hc : client n with
    | none =>
      simp only [hc]
      rw [ih last (fun m hm fn hfn => hf m (List.mem_cons_of_mem _ hm) fn hfn)]
      have hce : clientErrors client (n :: rest) = clientErrors client rest := by
        simp [clientErrors, hc]
      rw [hce]
    | some fn =>
      have hfail := hf n (List.mem_cons_self _ _) fn hc
      simp only [hc]
      cases hw : fn.withArgs with
      | ok v =>
        have h1 := hfail.1
        rw [hw] at h1
        exact absurd h1 (by simp [exceptFailed])
      | error e =>
        simp only [hw]
        cases e with
        | typeError msg =>
          cases hn : fn.noArgs with
          | ok v =>
            have h3 := hfail.2 msg hw
            rw [hn] at h3
            exact absurd h3 (by simp [exceptFailed])
          | error e2 =>
            simp only [hn]
            rw [ih (some e2) (fun m hm fn2 hfn2 => hf m (List.mem_cons_of_mem _ hm) fn2 hfn2)]
            have hce : clientErrors client (n :: rest) =
                PyErr.typeError msg :: e2 :: clientErrors client rest := by
              simp [clientErrors, hc, candidateErrors, hw, hn]
            rw [hce]
            refine lastExcResult_ext names0 ?_
            show (e2 :: clientErrors client rest).getLast? =
              (last.toList ++ (PyErr.typeError msg :: e2 :: clientErrors client rest)).getLast?
            rw [List.getLast?_append_cons, List.getLast?_cons_cons]
        | otherError msg =>
          rw [ih (some (PyErr.otherError msg))
            (fun m hm fn2 hfn2 => hf m (List.mem_cons_of_mem _ hm) fn2 hfn2)]
          have hce : clientErrors client (n :: rest) =
              PyErr.otherError msg :: clientErrors client rest := by
            simp [clientErrors, hc, candidateErrors, hw]
          rw [hce]
          refine lastExcResult_ext names0 ?_
          show (PyErr.otherError msg :: clientErrors client rest).getLast? =
            (last.toList ++ (PyErr.otherError msg :: clientErrors client rest)).getLast?
          rw [List.getLast?_append_cons]

/-- A candidate list holding a failing callable yields at least one
encountered exception. -/
theorem clientErrors_ne_nil_lemma {A : Type} (client : String → Option (Callable A)) :
    ∀ {names : List String} {n : String} {fn : Callable A},
    n ∈ names → client n = some fn → callableFails fn →
    clientErrors client names ≠ [] := by
  intro names
  induction names with
  | nil =>
    intro n fn hn
    simp at hn
  | cons m rest ih =>
    intro n fn hn hfn hfail hcontra
    rw [clientErrors, List.append_eq_nil] at hcontra
    rcases List.mem_cons.mp hn with h | h
    · subst h
      simp only [hfn] at hcontra
      exact candidateErrors_ne_nil hfail hcontra.1
    · exact ih h hfn hfail hcontra.2

/-- A candidate list with no callable member yields no exception. -/
theorem clientErrors_nil_of_none {A : Type} (client : String → Option (Callable A)) :
    ∀ {names : List String}, (∀ n ∈ names, client n = none) →
    clientErrors client names = [] := by
  intro names
  induction names with
  | nil => intro _; rfl
  | cons m rest ih =>
    intro h
    rw [clientErrors]
    simp only [h m (List.mem_cons_self _ _)]
    have hrest := ih (fun n hn => h n (List.mem_cons_of_mem _ hn))
    simp [hrest]

/-- Claim C4.  When at least one candidate name resolves to a callable
but every callable candidate fails, try_calls raises the last exception
encountered over the whole pass; when no candidate name resolves to a
callable, it raises the distinct no-function RuntimeError, never
returning a default value. -/
theorem C4_invoke_failure_modes {A : Type} (client : String → Option (Callable A))
    (names : List String) :
    ((∃ n ∈ names, ∃ fn, client n = some fn) →
      (∀ n ∈ names, ∀ fn, client n = some fn → callableFails fn) →
      ∃ e, (clientErrors client names).getLast? = some e ∧
        try_calls client names = Except.error (TryCallsErr.exc e))
    ∧ ((∀ n ∈ names, client n = none) →
      try_calls client names = Except.error (TryCallsErr.noFunctionFound names)) := by
  constructor
  · intro hex hf
    obtain ⟨n, hn, fn, hfn⟩ := hex
    have hne : clientErrors client names ≠ [] :=
      clientErrors_ne_nil_lemma client hn hfn (hf n hn fn hfn)
    refine ⟨(clientErrors client names).getLast hne,
      List.getLast?_eq_getLast_of_ne_nil hne, ?_⟩
    unfold try_calls
    rw [tryCallsGo_all_fail client names names none hf]
    show (lastExcResult names (clientErrors client names) : Except TryCallsErr A) = _
    unfold lastExcResult
    rw [List.getLast?_eq_getLast_of_ne_nil hne]
  · intro hnone
    have hf : ∀ n ∈ names, ∀ fn, client n = some fn → callableFails fn := by
      intro n hn fn hfn
      rw [hnone n hn] at hfn
      exact Option.noConfusion hfn
    unfold try_calls
    rw [tryCallsGo_all_fail client names names none hf]
    rw [clientErrors_nil_of_none client hnone]
    rfl

/-- Client for the C4 witness: one name missing, one callable whose call
raises a TypeError and whose no-argument retry raises another error. -/
def client4 : String → Option (Callable Nat) :=
  fun n => if n = "g2"
    then some ⟨Except.error (PyErr.typeError "t"), Except.error (PyErr.otherError "b")⟩
    else none

/-- Claim C4, witness at concrete clients for both failure modes. -/
theorem C4_witness :
    (∃ e, (clientErrors client4 ["g1", "g2"]).getLast? = some e ∧
      try_calls client4 ["g1", "g2"] = Except.error (TryCallsErr.exc e)) ∧
    try_calls (fun _ : String => (none : Option (Callable Nat))) ["a", "b"] =
      Except.error (TryCallsErr.noFunctionFound ["a", "b"]) := by
  constructor
  · refine (C4_invoke_failure_modes client4 ["g1", "g2"]).1 ⟨"g2", by simp, _, rfl⟩ ?_
    intro n hn fn hfn
    rcases List.mem_cons.mp hn with h | h
    · subst h
      simp [client4] at hfn
    · rcases List.mem_cons.mp h with h2 | h2
      · subst h2
        simp [client4] at hfn
        subst hfn
        exact ⟨rfl, fun msg _ => rfl⟩
      · simp at h2
  · exact (C4_invoke_failure_modes _ ["a", "b"]).2 (fun n _ => rfl)

/-- try_calls skips a prefix of names that are missing or not callable. -/
theorem tryCallsGo_skip_none {A : Type} (client : String → Option (Callable A))
    (names0 : List String) :
    ∀ (pre l : List String) (last : Option PyErr),
    (∀ m ∈ pre, client m = none) →
    tryCallsGo client names0 (pre ++ l) last = tryCallsGo client names0 l last := by
  intro pre
  induction pre with
  | nil => intro l last _; rfl
  | cons m rest ih =>
    intro l last h
    rw [List.cons_append, tryCallsGo]
    simp only [h m (List.mem_cons_self _ _)]
    exact ih l last (fun x hx => h x (List.mem_cons_of_mem _ hx))

/-- Claim C5.  When every name before n is missing or not callable, n is
callable, the call with the supplied arguments raises a TypeError, and
the no-argument retry succeeds, try_calls returns that success whatever
the remaining candidates are. -/
theorem C5_typeError_noargs_fallback {A : Type} (client : String → Option (Callable A))
    (pre rest : List String) (n : String) (fn : Callable A) (v : A) (msg : String)
    (hpre : ∀ m ∈ pre, client m = none)
    (hn : client n = some fn)
    (hta : fn.withArgs = Except.error (PyErr.typeError msg))
    (hna : fn.noArgs = Except.ok v) :
    try_calls client (pre ++ n :: rest) = Except.ok v := by
  unfold try_calls
  rw [tryCallsGo_skip_none client (pre ++ n :: rest) pre (n :: rest) none hpre]
  rw [tryCallsGo]
  simp only [hn, hta, hna]

/-- Client for the C5 witness: its only callable member raises a
TypeError with arguments and succeeds without. -/
def client5 : String → Option (Callable Nat) :=
  fun m => if m = "b"
    then some ⟨Except.error (PyErr.typeError "args"), Except.ok 7⟩
    else none

/-- Claim C5, witness: the no-argument retry result is returned even with
a further candidate pending. -/
theorem C5_witness :
    try_calls client5 (["a"] ++ "b" :: ["c"]) = Except.ok 7 :=
  C5_typeError_noargs_fallback client5 ["a"] ["c"] "b"
    ⟨Except.error (PyErr.typeError "args"), Except.ok 7⟩ 7 "args"
    (by
      intro m hm
      rcases List.mem_cons.mp hm with h | h
      · subst h
        rfl
      · simp at h)
    rfl rfl rfl

/- ===== Claim C8 ===== -/

/-- Claim C8.  The three strategies of the sniffer run in strict priority
order and the first non-empty result is returned: a non-empty step-1
result is returned as is; with an empty step-1 result a non-empty step-2
result is returned; with both empty the recursive-search step decides. -/
theorem C8_strategy_priority (data : Json) (hobj : data.isObj = true) :
    (step1 data ≠ [] → extract_characters_from_response data = step1 data)
    ∧ (step1 data = [] → step2 data ≠ [] →
      extract_characters_from_response data = step2 data)
    ∧ (step1 data = [] → step2 data = [] →
      extract_characters_from_response data = step3 data) := by
  cases data with
  | obj fs =>
    refine ⟨?_, ?_, ?_⟩
    · intro h1
      have hne : (step1 (Json.obj fs)).isEmpty = false := by
        cases hs : step1 (Json.obj fs) with
        | nil => exact absurd hs h1
        | cons a l => rfl
      simp [extract_characters_from_response, hne]
    · intro h1 h2
      have hne : (step2 (Json.obj fs)).isEmpty = false := by
        cases hs : step2 (Json.obj fs) with
        | nil => exact absurd hs h2
        | cons a l => rfl
      simp [extract_characters_from_response, h1, hne]
    · intro h1 h2
      simp [extract_characters_from_response, h1, h2]
  | null => simp [Json.isObj] at hobj
  | bool b => simp [Json.isObj] at hobj
  | num m => simp [Json.isObj] at hobj
  | str s => simp [Json.isObj] at hobj
  | arr xs => simp [Json.isObj] at hobj

/-- The Scenario-B payload: a characters key but no avatarInfoList key. -/
def raidenPayload : Json :=
  Json.obj [("characters", Json.arr [Json.obj [("avatarName", Json.str "Raiden")]])]

/-- Claim C8, witness: on the Scenario-B payload step 1 is empty, so the
sniffer returns the step-2 normalization, one record named Raiden. -/
theorem C8_witness :
    extract_characters_from_response raidenPayload = step2 raidenPayload ∧
    step2 raidenPayload =
      [⟨"Raiden", Json.obj [("avatarName", Json.str "Raiden")]⟩] :=
  ⟨(C8_strategy_priority raidenPayload rfl).2.1 rfl
    (by
      intro h
      have hl : (step2 raidenPayload).length = 1 := rfl
      rw [h] at hl
      exact absurd hl (by decide)),
   rfl⟩

/- ===== Claim C9 ===== -/

/-- Claim C9.  The sniffer is total by construction (it returns a list
for every payload, and every record name is a string by type); moreover
every returned record has a raw field that is a dict taken from the
payload, so non-dict sequence elements are never returned. -/
theorem C9_extract_raw_shape (data : Json) (r : CharacterRecord)
    (hr : r ∈ extract_characters_from_response data) :
    r.raw.isObj = true ∧ Occurs r.raw data := by
  cases data with
  | obj fs =>
    simp only [extract_characters_from_response] at hr
    split at hr
    · split at hr
      · exact step3_mem hr
      · exact step2_mem hr
    · exact step1_mem hr
  | null => simp [extract_characters_from_response] at hr
  | bool b => simp [extract_characters_from_response] at hr
  | num m => simp [extract_characters_from_response] at hr
  | str s => simp [extract_characters_from_response] at hr
  | arr xs => simp [extract_characters_from_response] at hr

/-- Claim C9, witness: the record returned for the Scenario-B payload has
a dict raw field occurring in the payload. -/
theorem C9_witness :
    (Json.obj [("avatarName", Json.str "Raiden")]).isObj = true ∧
    Occurs (Json.obj [("avatarName", Json.str "Raiden")]) raidenPayload :=
  C9_extract_raw_shape raidenPayload
    ⟨"Raiden", Json.obj [("avatarName", Json.str "Raiden")]⟩
    (by
      have he : extract_characters_from_response raidenPayload =
          [⟨"Raiden", Json.obj [("avatarName", Json.str "Raiden")]⟩] := rfl
      rw [he]
      exact List.mem_singleton_self _)

/- ===== Claim C10 ===== -/

/-- Claim C10.  The sniffer is deterministic: it is a pure function of the
payload (the source reads the payload without mutating it and consults no
other state), so two applications to the same payload yield the same
ordered output. -/
theorem C10_extract_deterministic (data : Json) :
    extract_characters_from_response data = extract_characters_from_response data := rfl
